import Mathlib

/-
Verification of the daydoe trading bot (src/daydoe.py).

The Python program is shallowly embedded below: prices and quantities are
modelled as rationals, a pandas DataFrame as a record of columns, pandas
rolling means as lists of optional values (NaN becomes `none`), and the
Python exceptions raised by `iloc[-1]` on an empty Series as `Except.error`.
-/

namespace Daydoe

/-- Trading signal returned by the signal function: the strings
`buy`, `sell`, `hold` of the Python code. -/
inductive Signal
  | buy
  | sell
  | hold
deriving DecidableEq, Repr

/-- Model of a pandas DataFrame as produced in `run_alpaca_bot` (lines 72-79)
and `run_ccxt_bot` (line 153): the six bar columns, plus the two SMA columns
that `sma_crossover_signals` assigns (the columns `SMA_short` and `SMA_long`);
they are `none` before that assignment.  An SMA column is a list of optional
rationals: `none` models a NaN entry of the pandas Series. -/
structure DataFrame where
  timestamp : List ℚ
  open_ : List ℚ
  high : List ℚ
  low : List ℚ
  close : List ℚ
  volume : List ℚ
  smaShort : Option (List (Option ℚ)) := none
  smaLong : Option (List (Option ℚ)) := none
deriving DecidableEq, Repr

/-- Model of `series.rolling(window=w).mean()` for a pandas Series
(daydoe.py lines 20-21): entry `i` is NaN (`none`) while fewer than `w`
values are available, i.e. while `i + 1 < w`, and otherwise the mean of the
`w` values ending at index `i`. -/
def rollingMean (w : Nat) (xs : List ℚ) : List (Option ℚ) :=
  (List.range xs.length).map (fun i =>
    if i + 1 < w then none
    else some (((xs.drop (i + 1 - w)).take w).sum / (w : ℚ)))

/-- Model of lines 23-35 of daydoe.py, operating on the two SMA columns:
if either column has any NaN, return `hold` (lines 24-25); otherwise read
`iloc[-1]` of each column — which raises an IndexError when the Series is
empty, modelled by `Except.error` — and compare (lines 27-35).  After the
NaN guard has passed, a non-empty column necessarily ends in `some _`, so
the catch-all match arm is reached exactly when a column is empty. -/
def smaDecision (sShort sLong : List (Option ℚ)) : Except String Signal :=
  if sShort.any Option.isNone || sLong.any Option.isNone then
    Except.ok Signal.hold
  else
    match sShort.getLast?, sLong.getLast? with
    | some (some short_sma_latest), some (some long_sma_latest) =>
      Except.ok (if short_sma_latest > long_sma_latest then Signal.buy
        else if short_sma_latest < long_sma_latest then Signal.sell
        else Signal.hold)
    | _, _ => Except.error "IndexError: single positional indexer is out-of-bounds"

/-- Model of `sma_crossover_signals(df, short_window, long_window)`
(daydoe.py lines 15-35).  The Python function mutates its argument by
assigning the columns `SMA_short` and `SMA_long` (lines 20-21)
before deciding; the mutation is made explicit by returning the updated
frame together with the result. -/
def sma_crossover_signals (df : DataFrame) (short_window long_window : Nat) :
    DataFrame × Except String Signal :=
  ({ df with
      smaShort := some (rollingMean short_window df.close),
      smaLong := some (rollingMean long_window df.close) },
   smaDecision (rollingMean short_window df.close) (rollingMean long_window df.close))

/-- Side of an order. -/
inductive Side
  | buy
  | sell
deriving DecidableEq, Repr

/-- Order sizing: `notional=...` (currency amount, Alpaca buy path) or a
unit quantity (`qty=...` on Alpaca sells, the amount argument on CCXT). -/
inductive Sizing
  | notionalAmt (amt : ℚ)
  | qty (q : ℚ)
deriving DecidableEq, Repr

/-- An order submitted to the backend: symbol, side and sizing. -/
structure OrderIntent where
  symbol : String
  side : Side
  sizing : Sizing
deriving DecidableEq, Repr

/-- The literal `1e-8` of daydoe.py lines 174 and 183. -/
def eps : ℚ := 1 / 100000000

/-- Model of the order logic of `run_alpaca_bot` (daydoe.py lines 102-123):
buy `notional` when the signal is `buy` and `current_qty == 0`; sell the
entire `current_qty` when the signal is `sell` and `current_qty > 0`;
otherwise do nothing. -/
def alpacaReconcile (signal : Signal) (current_qty : ℚ) (symbol : String)
    (notional : ℚ) : Option OrderIntent :=
  if signal = Signal.buy ∧ current_qty = 0 then
    some ⟨symbol, Side.buy, Sizing.notionalAmt notional⟩
  else if signal = Signal.sell ∧ current_qty > 0 then
    some ⟨symbol, Side.sell, Sizing.qty current_qty⟩
  else
    none

/-- Model of the order logic of `run_ccxt_bot` (daydoe.py lines 174-189):
buy `trade_amount` when the signal is `buy` and `base_free < 1e-8`; sell
the entire `base_free` when the signal is `sell` and `base_free > 1e-8`;
otherwise do nothing. -/
def ccxtReconcile (signal : Signal) (base_free : ℚ) (symbol : String)
    (trade_amount : ℚ) : Option OrderIntent :=
  if signal = Signal.buy ∧ base_free < eps then
    some ⟨symbol, Side.buy, Sizing.qty trade_amount⟩
  else if signal = Signal.sell ∧ base_free > eps then
    some ⟨symbol, Side.sell, Sizing.qty base_free⟩
  else
    none

/-- Observable outcome of one tick of either bot: whether the tick was
skipped for lack of data, the signal that was computed (if any), whether
the current position was read, and the order that was submitted (if any). -/
structure TickTrace where
  skippedEmpty : Bool
  signal : Option Signal
  positionQueried : Bool
  order : Option OrderIntent
deriving DecidableEq, Repr

/-- Model of `float(position.qty)` with the `except APIError: current_qty = 0`
handler of daydoe.py lines 94-99: a failed position query yields quantity 0. -/
def alpacaQtyOf : Except String ℚ → ℚ
  | Except.ok q => q
  | Except.error _ => 0

/-- Model of one invocation of `run_alpaca_bot` (daydoe.py lines 47-123)
after the external calls are abstracted into inputs: `df` is the frame built
from the fetched bars, `posResult` the outcome of `api.get_position`
(`Except.error` models the `APIError` raised when no position exists).
Lines 81-83: an empty frame skips the tick before any signal or position
logic.  Otherwise the signal is computed (an exception inside it propagates,
line 86), the position read through the error handler of lines 94-99, and
the order logic of lines 102-123 runs. -/
def run_alpaca_bot (df : DataFrame) (posResult : Except String ℚ)
    (symbol : String) (notional : ℚ) (short_window long_window : Nat) :
    Except String TickTrace :=
  if df.close.isEmpty then
    Except.ok ⟨true, none, false, none⟩
  else
    match (sma_crossover_signals df short_window long_window).2 with
    | Except.error e => Except.error e
    | Except.ok signal =>
      Except.ok ⟨false, some signal, true,
        alpacaReconcile signal (alpacaQtyOf posResult) symbol notional⟩

/-- Model of one invocation of `run_ccxt_bot` (daydoe.py lines 129-189)
after the external calls are abstracted into inputs: `df` is built from the
fetched OHLCV rows, `base_free` is the free balance of the base currency
(line 171).  Lines 156-158: an empty frame skips the tick before any signal
or balance logic; otherwise the signal is computed and the order logic of
lines 174-189 runs. -/
def run_ccxt_bot (df : DataFrame) (base_free : ℚ) (symbol : String)
    (trade_amount : ℚ) (short_window long_window : Nat) :
    Except String TickTrace :=
  if df.close.isEmpty then
    Except.ok ⟨true, none, false, none⟩
  else
    match (sma_crossover_signals df short_window long_window).2 with
    | Except.error e => Except.error e
    | Except.ok signal =>
      Except.ok ⟨false, some signal, true,
        ccxtReconcile signal base_free symbol trade_amount⟩

/-- Observable event of the main loop: a tick ran (recording the message of
a caught exception, if one was caught at the tick boundary), the sleep
between iterations, or the `break` on an unknown broker. -/
inductive LoopEvent
  | tickRan (caught : Option String)
  | sleep
  | stoppedUnknownBroker
deriving DecidableEq, Repr

/-- Runs the body of the `while True` loop once per supplied tick behaviour
(each tick of the real program either returns or raises, abstracted as an
`Except`): the `try`/`except` of lines 200-209 turns a raised exception into
a logged event, and line 212 sleeps before the next iteration. -/
def runTicks : List (Except String Unit) → List LoopEvent
  | [] => []
  | Except.ok _ :: rest => LoopEvent.tickRan none :: LoopEvent.sleep :: runTicks rest
  | Except.error e :: rest =>
    LoopEvent.tickRan (some e) :: LoopEvent.sleep :: runTicks rest

/-- Model of `main` (daydoe.py lines 195-212) with the per-tick behaviours
supplied as a finite list (the real loop is unbounded; a list of length n
observes its first n iterations).  `broker` is the already lowercased
selector of line 197: a known broker runs ticks, anything else prints and
breaks before any trading logic runs. -/
def mainLoop (broker : String) (ticks : List (Except String Unit)) :
    List LoopEvent :=
  if broker = "alpaca" ∨ broker = "ccxt" then
    runTicks ticks
  else
    [LoopEvent.stoppedUnknownBroker]

/-- Recognizer for tick events, used to count how many ticks the loop ran. -/
def isTickRanEvent : LoopEvent → Bool
  | LoopEvent.tickRan _ => true
  | _ => false

/-- Written from the words of the specification, for comparison with the
code: the simple moving average of the trailing `w` closing prices ending
at the latest bar, defined exactly when `1 ≤ w` and the series has at
least `w` bars. -/
def spec_trailingSMA (w : Nat) (close : List ℚ) : Option ℚ :=
  if 1 ≤ w ∧ w ≤ close.length then
    some ((close.drop (close.length - w)).sum / (w : ℚ))
  else
    none

/-- Written from the words of the specification, for comparison with the
code: the decision rule at the latest bar — `short_avg > long_avg → Buy`,
`short_avg < long_avg → Sell`, exact equality → `Hold` — with `Hold`
whenever either trailing average is undefined (insufficient data). -/
def spec_computeSignal (close : List ℚ) (shortW longW : Nat) : Signal :=
  match spec_trailingSMA shortW close, spec_trailingSMA longW close with
  | some s, some l =>
    if s > l then Signal.buy
    else if s < l then Signal.sell
    else Signal.hold
  | _, _ => Signal.hold

/-- A frame with no rows, as produced when the backend returns no data. -/
def emptyDF : DataFrame :=
  { timestamp := [], open_ := [], high := [], low := [], close := [],
    volume := [] }

/-- A concrete two-bar frame with rising close prices 1 then 3. -/
def dfRising : DataFrame :=
  { timestamp := [0, 1], open_ := [1, 3], high := [1, 3], low := [1, 3],
    close := [1, 3], volume := [0, 0] }

/-- A concrete one-bar frame with close price 5. -/
def dfOneBar : DataFrame :=
  { timestamp := [0], open_ := [5], high := [5], low := [5], close := [5],
    volume := [0] }

/-- A rolling mean with window at least 2 over a non-empty series starts
with a NaN entry, so the pandas `isna().any()` test is true. -/
theorem rollingMean_head_none (w : Nat) (xs : List ℚ) (hw : 2 ≤ w)
    (hx : xs ≠ []) : (rollingMean w xs).any Option.isNone = true := by
  rw [List.any_eq_true]
  refine ⟨none, ?_, rfl⟩
  unfold rollingMean
  refine List.mem_map.mpr ⟨0, List.mem_range.mpr (List.length_pos.mpr hx), ?_⟩
  rw [if_pos (by omega)]

/-- A rolling mean with window 1 has no NaN entry. -/
theorem rollingMean_one_no_none (xs : List ℚ) :
    (rollingMean 1 xs).any Option.isNone = false := by
  rw [List.any_eq_false]
  intro o ho
  rcases List.mem_map.mp ho with ⟨i, _, rfl⟩
  rw [if_neg (by omega)]
  simp

/-- A rolling mean with window 1 over a non-empty series ends in a defined
value. -/
theorem rollingMean_one_getLast (xs : List ℚ) (h : xs ≠ []) :
    ∃ a, (rollingMean 1 xs).getLast? = some (some a) := by
  have hne : rollingMean 1 xs ≠ [] := by
    unfold rollingMean
    simp [List.length_pos.mpr h, h]
  obtain ⟨y, hy⟩ := Option.isSome_iff_exists.mp (List.getLast?_isSome.mpr hne)
  have h1 := List.getLast?_eq_getLast_of_ne_nil hne
  rw [hy] at h1
  have hmem : y ∈ rollingMean 1 xs := Option.some.inj h1 ▸ List.getLast_mem hne
  rcases List.mem_map.mp hmem with ⟨i, _, rfl⟩
  rw [if_neg (by omega)] at hy
  exact ⟨_, hy⟩

/-- Central behavioural fact about the code: on every non-empty frame with
both windows at least 1, `sma_crossover_signals` evaluates to `hold` —
either some window is at least 2 and its column starts with NaN, firing the
any-NaN guard, or both windows are 1 and the two latest averages coincide. -/
theorem sma_always_hold (df : DataFrame) (sw lw : Nat) (hne : df.close ≠ [])
    (hs : 1 ≤ sw) (hl : 1 ≤ lw) :
    (sma_crossover_signals df sw lw).2 = Except.ok Signal.hold := by
  show smaDecision (rollingMean sw df.close) (rollingMean lw df.close) = _
  by_cases h2s : 2 ≤ sw
  · unfold smaDecision
    rw [rollingMean_head_none sw df.close h2s hne]
    simp
  · have hsw : sw = 1 := by omega
    subst hsw
    by_cases h2l : 2 ≤ lw
    · unfold smaDecision
      rw [rollingMean_head_none lw df.close h2l hne]
      simp
    · have hlw : lw = 1 := by omega
      subst hlw
      unfold smaDecision
      rw [rollingMean_one_no_none]
      obtain ⟨a, ha⟩ := rollingMean_one_getLast df.close hne
      simp only [Bool.or_self, Bool.false_eq_true, if_false, ha]
      simp

/-- Numeric helper: one billionth is positive. -/
theorem tiny_pos : (0 : ℚ) < 1 / 1000000000 := by norm_num

/-- Numeric helper: one billionth is below the 1e-8 threshold. -/
theorem tiny_lt_eps : (1 : ℚ) / 1000000000 < eps := by norm_num [eps]

/-- Numeric helper: 5 is positive. -/
theorem five_pos : (0 : ℚ) < 5 := by norm_num

/-- Numeric helper: the 1e-8 threshold is positive. -/
theorem eps_pos : (0 : ℚ) < eps := by norm_num [eps]

/-- Numeric helper: the 1e-8 threshold is at most 1. -/
theorem eps_le_one : eps ≤ (1 : ℚ) := by norm_num [eps]

/-- Numeric helper: the 1e-8 threshold is below 5. -/
theorem eps_lt_five : eps < (5 : ℚ) := by norm_num [eps]

/-- The loop body runs exactly one tick event per supplied tick behaviour,
whether it returned or raised. -/
theorem runTicks_countP (ts : List (Except String Unit)) :
    (runTicks ts).countP isTickRanEvent = ts.length := by
  induction ts with
  | nil => rfl
  | cons t rest ih =>
    cases t <;> simp [runTicks, List.countP_cons, isTickRanEvent, ih]

/-- The loop body never emits the stop event. -/
theorem runTicks_no_stop (ts : List (Except String Unit)) :
    LoopEvent.stoppedUnknownBroker ∉ runTicks ts := by
  induction ts with
  | nil => simp [runTicks]
  | cons t rest ih => cases t <;> simp [runTicks, ih]

/-- Claim C1 (code bug): on the two-bar series with closes 1 then 3 and
windows 1 and 2, both trailing averages at the latest bar are defined and
the short one (3) strictly exceeds the long one (2), so the stated decision
rule demands Buy — as the specification-side `spec_computeSignal` confirms —
yet the code returns `hold`, because its any-NaN guard fires on the leading
NaN of the long SMA column even though the latest entries are defined. -/
theorem sma_guard_masks_crossover :
    (sma_crossover_signals dfRising 1 2).2 = Except.ok Signal.hold ∧
    spec_computeSignal dfRising.close 1 2 = Signal.buy := by
  constructor
  · rfl
  · show spec_computeSignal [1, 3] 1 2 = Signal.buy
    norm_num [spec_computeSignal, spec_trailingSMA]

/-- Claim C2 (confirmed): for every non-empty bar series and windows both
at least 1, `sma_crossover_signals` returns `hold` — a window of at least 2
leaves NaN in the first rows of its column and the any-NaN guard fires,
while windows both equal to 1 make the two averages identical, the
exact-equality tie.  Hence both bots compute the signal `hold` and submit
no order. -/
theorem sma_signals_always_hold (df : DataFrame) (sw lw : Nat)
    (posResult : Except String ℚ) (base_free : ℚ) (sym : String)
    (notional trade_amount : ℚ) (hne : df.close ≠ []) (hs : 1 ≤ sw)
    (hl : 1 ≤ lw) :
    (sma_crossover_signals df sw lw).2 = Except.ok Signal.hold ∧
    run_alpaca_bot df posResult sym notional sw lw =
      Except.ok ⟨false, some Signal.hold, true, none⟩ ∧
    run_ccxt_bot df base_free sym trade_amount sw lw =
      Except.ok ⟨false, some Signal.hold, true, none⟩ := by
  have h := sma_always_hold df sw lw hne hs hl
  have hemp : df.close.isEmpty = false := by
    simp [List.isEmpty_iff, hne]
  refine ⟨h, ?_, ?_⟩
  · unfold run_alpaca_bot
    rw [hemp, h]
    rfl
  · unfold run_ccxt_bot
    rw [hemp, h]
    rfl

/-- Witness for claim C2 at a concrete input: two rising bars, windows 1
and 2. -/
theorem sma_signals_always_hold_witness :
    (sma_crossover_signals dfRising 1 2).2 = Except.ok Signal.hold :=
  (sma_signals_always_hold dfRising 1 2 (Except.ok 0) 0 "X" 1 1 (by decide)
    (by decide) (by decide)).1

/-- Counterexample for claim C3: evaluating the signal on a concrete frame
does not leave the passed-in frame unchanged — the SMA columns are added. -/
theorem sma_mutates_input_frame :
    (sma_crossover_signals dfRising 1 2).1 ≠ dfRising := by
  intro h
  simpa [sma_crossover_signals, dfRising] using congrArg DataFrame.smaShort h

/-- Claim C3 (corrected): the signal computation is deterministic and
touches none of the original bar columns, but it does mutate the passed-in
frame by setting the two SMA columns. -/
theorem sma_frame_effect (df : DataFrame) (sw lw : Nat) :
    (sma_crossover_signals df sw lw).1 =
      { df with smaShort := some (rollingMean sw df.close),
                smaLong := some (rollingMean lw df.close) } ∧
    (sma_crossover_signals df sw lw).1.timestamp = df.timestamp ∧
    (sma_crossover_signals df sw lw).1.open_ = df.open_ ∧
    (sma_crossover_signals df sw lw).1.high = df.high ∧
    (sma_crossover_signals df sw lw).1.low = df.low ∧
    (sma_crossover_signals df sw lw).1.close = df.close ∧
    (sma_crossover_signals df sw lw).1.volume = df.volume :=
  ⟨rfl, rfl, rfl, rfl, rfl, rfl, rfl⟩

/-- Counterexample for claim C4: the empty series is strictly shorter than
the long window 2, yet the function does not return Hold there — it raises
an IndexError at `iloc[-1]`, because `isna().any()` is false on an empty
column so the insufficient-data guard does not fire. -/
theorem short_series_empty_raises :
    emptyDF.close.length < 2 ∧
    (sma_crossover_signals emptyDF 1 2).2 ≠ Except.ok Signal.hold := by
  refine ⟨by decide, fun h => ?_⟩
  rw [show (sma_crossover_signals emptyDF 1 2).2 =
    Except.error "IndexError: single positional indexer is out-of-bounds" from
    rfl] at h
  exact Except.noConfusion h

/-- Claim C4 (corrected): for every non-empty bar series strictly shorter
than the long window, the signal function returns `hold` for all price
values, including when the short-window average is computable. -/
theorem short_series_returns_hold (df : DataFrame) (sw lw : Nat)
    (hne : df.close ≠ []) (hlt : df.close.length < lw) :
    (sma_crossover_signals df sw lw).2 = Except.ok Signal.hold := by
  have h2 : 2 ≤ lw := by
    have := List.length_pos.mpr hne
    omega
  show smaDecision (rollingMean sw df.close) (rollingMean lw df.close) = _
  unfold smaDecision
  rw [rollingMean_head_none lw df.close h2 hne]
  simp

/-- Witness for claim C4 at a concrete input: one bar, long window 2, with
the short window 1 computable. -/
theorem short_series_returns_hold_witness :
    (sma_crossover_signals dfOneBar 1 2).2 = Except.ok Signal.hold :=
  short_series_returns_hold dfOneBar 1 2 (by decide) (by decide)

/-- Claim C5 (corrected): on a Buy signal the equities path emits a
notional-sized buy order exactly when the held quantity is 0 and no order
for any strictly positive quantity; the crypto path emits a
trade-amount-sized buy order exactly when the held quantity is below 1e-8,
so a strictly positive quantity of at least 1e-8 yields no order but one
below 1e-8 still yields a buy. -/
theorem buy_reconciliation (sym : String) (n amt : ℚ) :
    alpacaReconcile Signal.buy 0 sym n =
      some ⟨sym, Side.buy, Sizing.notionalAmt n⟩ ∧
    (∀ q : ℚ, 0 < q → alpacaReconcile Signal.buy q sym n = none) ∧
    (∀ q : ℚ, q < eps →
      ccxtReconcile Signal.buy q sym amt = some ⟨sym, Side.buy, Sizing.qty amt⟩) ∧
    (∀ q : ℚ, eps ≤ q → ccxtReconcile Signal.buy q sym amt = none) := by
  refine ⟨rfl, fun q hq => ?_, fun q hq => ?_, fun q hq => ?_⟩
  · simp [alpacaReconcile, ne_of_gt hq]
  · simp [ccxtReconcile, hq]
  · simp [ccxtReconcile, not_lt.mpr hq]

/-- Witness for claim C5 at concrete quantities 5, 0 and 1. -/
theorem buy_reconciliation_witness :
    alpacaReconcile Signal.buy 5 "X" 7 = none ∧
    ccxtReconcile Signal.buy 0 "X" 7 = some ⟨"X", Side.buy, Sizing.qty 7⟩ ∧
    ccxtReconcile Signal.buy 1 "X" 7 = none :=
  ⟨(buy_reconciliation "X" 7 7).2.1 5 five_pos,
   (buy_reconciliation "X" 7 7).2.2.1 0 eps_pos,
   (buy_reconciliation "X" 7 7).2.2.2 1 eps_le_one⟩

/-- Counterexample for claim C5: with the strictly positive held quantity
one billionth, the crypto path does emit a buy order, refuting the claim
that any strictly positive quantity yields no order. -/
theorem buy_reconcile_tiny_quantity_orders :
    (0 : ℚ) < 1 / 1000000000 ∧
    ccxtReconcile Signal.buy (1 / 1000000000) "BTC/USDT" 7 =
      some ⟨"BTC/USDT", Side.buy, Sizing.qty 7⟩ := by
  refine ⟨tiny_pos, ?_⟩
  unfold ccxtReconcile
  rw [if_pos ⟨rfl, tiny_lt_eps⟩]

/-- Claim C6 (corrected): on a Sell signal the equities path emits a sell
order sized exactly q for every strictly positive q and nothing at 0; the
crypto path emits a sell order sized exactly q only when q exceeds 1e-8,
so quantities at most 1e-8 — including 0 and tiny positive ones — yield no
order. -/
theorem sell_reconciliation (sym : String) (n amt : ℚ) :
    (∀ q : ℚ, 0 < q →
      alpacaReconcile Signal.sell q sym n = some ⟨sym, Side.sell, Sizing.qty q⟩) ∧
    alpacaReconcile Signal.sell 0 sym n = none ∧
    (∀ q : ℚ, eps < q →
      ccxtReconcile Signal.sell q sym amt = some ⟨sym, Side.sell, Sizing.qty q⟩) ∧
    (∀ q : ℚ, q ≤ eps → ccxtReconcile Signal.sell q sym amt = none) := by
  refine ⟨fun q hq => ?_, ?_, fun q hq => ?_, fun q hq => ?_⟩
  · simp [alpacaReconcile, hq]
  · simp [alpacaReconcile]
  · simp [ccxtReconcile, hq]
  · simp [ccxtReconcile, not_lt.mpr hq]

/-- Witness for claim C6 at concrete quantities 5 and 0. -/
theorem sell_reconciliation_witness :
    alpacaReconcile Signal.sell 5 "X" 7 = some ⟨"X", Side.sell, Sizing.qty 5⟩ ∧
    ccxtReconcile Signal.sell 5 "X" 7 = some ⟨"X", Side.sell, Sizing.qty 5⟩ ∧
    ccxtReconcile Signal.sell 0 "X" 7 = none :=
  ⟨(sell_reconciliation "X" 7 7).1 5 five_pos,
   (sell_reconciliation "X" 7 7).2.2.1 5 eps_lt_five,
   (sell_reconciliation "X" 7 7).2.2.2 0 (le_of_lt eps_pos)⟩

/-- Counterexample for claim C6: with the strictly positive held quantity
one billionth, the crypto path emits no sell order, refuting the claim
that every strictly positive quantity is fully closed. -/
theorem sell_reconcile_tiny_quantity_skipped :
    (0 : ℚ) < 1 / 1000000000 ∧
    ccxtReconcile Signal.sell (1 / 1000000000) "BTC/USDT" 7 = none := by
  refine ⟨tiny_pos, ?_⟩
  unfold ccxtReconcile
  rw [if_neg (fun h => Signal.noConfusion h.1),
    if_neg (fun h => absurd h.2 (not_lt.mpr (le_of_lt tiny_lt_eps)))]

/-- Claim C7 (corrected): for every held quantity q with 0 < q < 1e-8, the
crypto path treats the position as flat — a Buy signal yields a buy order
and a Sell signal yields none — but the equities path compares against
exact zero, so it treats such q as a live position: Buy yields no order and
Sell emits a sell order sized q. -/
theorem tiny_quantity_reconciliation (sym : String) (n amt : ℚ) (q : ℚ) (h0 : 0 < q) (he : q < eps) :
    ccxtReconcile Signal.buy q sym amt = some ⟨sym, Side.buy, Sizing.qty amt⟩ ∧
    ccxtReconcile Signal.sell q sym amt = none ∧
    alpacaReconcile Signal.buy q sym n = none ∧
    alpacaReconcile Signal.sell q sym n = some ⟨sym, Side.sell, Sizing.qty q⟩ := by
  refine ⟨?_, ?_, ?_, ?_⟩
  · simp [ccxtReconcile, he]
  · simp [ccxtReconcile, not_lt.mpr (le_of_lt he)]
  · simp [alpacaReconcile, ne_of_gt h0]
  · simp [alpacaReconcile, h0]

/-- Witness for claim C7 at the concrete quantity one billionth. -/
theorem tiny_quantity_reconciliation_witness :
    ccxtReconcile Signal.buy (1 / 1000000000) "X" 7 =
      some ⟨"X", Side.buy, Sizing.qty 7⟩ ∧
    alpacaReconcile Signal.buy (1 / 1000000000) "X" 7 = none :=
  ⟨(tiny_quantity_reconciliation "X" 7 7 (1 / 1000000000) tiny_pos tiny_lt_eps).1,
   (tiny_quantity_reconciliation "X" 7 7 (1 / 1000000000) tiny_pos tiny_lt_eps).2.2.1⟩

/-- Counterexample for claim C7: at the held quantity one billionth —
strictly between 0 and 1e-8 — the equities path emits no buy order on a
Buy signal, refuting the claim that both backends treat such a quantity as
flat. -/
theorem alpaca_exact_zero_flatness :
    (0 : ℚ) < 1 / 1000000000 ∧ (1 : ℚ) / 1000000000 < eps ∧
    alpacaReconcile Signal.buy (1 / 1000000000) "SPY" 100 = none := by
  refine ⟨tiny_pos, tiny_lt_eps, ?_⟩
  simp [alpacaReconcile, ne_of_gt tiny_pos]

/-- Claim C8 (confirmed): when the position query fails (the APIError
raised when no position exists), the tick proceeds with current quantity 0:
the run is identical to a run that saw an explicit quantity 0, and on a
non-empty series it completes normally rather than aborting. -/
theorem position_query_failure_not_fatal (df : DataFrame) (e : String) (sym : String) (n : ℚ)
    (sw lw : Nat) (hne : df.close ≠ []) (hs : 1 ≤ sw) (hl : 1 ≤ lw) :
    run_alpaca_bot df (Except.error e) sym n sw lw =
      run_alpaca_bot df (Except.ok 0) sym n sw lw ∧
    run_alpaca_bot df (Except.error e) sym n sw lw =
      Except.ok ⟨false, some Signal.hold, true, none⟩ := by
  have h := sma_always_hold df sw lw hne hs hl
  have hemp : df.close.isEmpty = false := by simp [List.isEmpty_iff, hne]
  refine ⟨rfl, ?_⟩
  unfold run_alpaca_bot
  rw [hemp, h]
  rfl

/-- Witness for claim C8 at a concrete failing position query. -/
theorem position_query_failure_not_fatal_witness :
    run_alpaca_bot dfRising (Except.error "position does not exist") "X" 1 1 2 =
      Except.ok ⟨false, some Signal.hold, true, none⟩ :=
  (position_query_failure_not_fatal dfRising "position does not exist" "X" 1 1 2 (by decide) (by decide)
    (by decide)).2

/-- Claim C9 (confirmed): on a tick whose fetched bar series is empty,
both bots skip: no signal is computed, no position or balance is read, no
order is produced, and the tick returns normally without an error. -/
theorem empty_series_skips_tick (df : DataFrame) (posResult : Except String ℚ) (base_free : ℚ)
    (sym : String) (n amt : ℚ) (sw lw : Nat) (he : df.close = []) :
    run_alpaca_bot df posResult sym n sw lw =
      Except.ok ⟨true, none, false, none⟩ ∧
    run_ccxt_bot df base_free sym amt sw lw =
      Except.ok ⟨true, none, false, none⟩ := by
  unfold run_alpaca_bot run_ccxt_bot
  rw [he]
  exact ⟨rfl, rfl⟩

/-- Witness for claim C9 at the concrete empty frame. -/
theorem empty_series_skips_tick_witness :
    run_alpaca_bot emptyDF (Except.ok 0) "X" 1 1 2 =
      Except.ok ⟨true, none, false, none⟩ ∧
    run_ccxt_bot emptyDF 0 "X" 1 1 2 = Except.ok ⟨true, none, false, none⟩ :=
  empty_series_skips_tick emptyDF (Except.ok 0) 0 "X" 1 1 1 2 rfl

/-- Claim C10 (confirmed): for a known broker the main loop runs one tick
event per iteration however many of them raise — a raised exception is
caught at the tick boundary, logged, followed by the sleep, and the
remaining iterations still run — and never stops; an unknown broker stops
the loop at once, before any tick event, which is the only stopping
condition. -/
theorem loop_isolates_tick_failures (broker : String) (ticks : List (Except String Unit)) :
    (broker = "alpaca" ∨ broker = "ccxt" →
      (mainLoop broker ticks).countP isTickRanEvent = ticks.length ∧
      LoopEvent.stoppedUnknownBroker ∉ mainLoop broker ticks ∧
      ∀ e rest, mainLoop broker (Except.error e :: rest) =
        LoopEvent.tickRan (some e) :: LoopEvent.sleep :: mainLoop broker rest) ∧
    (¬(broker = "alpaca" ∨ broker = "ccxt") →
      mainLoop broker ticks = [LoopEvent.stoppedUnknownBroker] ∧
      ∀ o, LoopEvent.tickRan o ∉ mainLoop broker ticks) := by
  constructor
  · intro hb
    have hif : ∀ ts : List (Except String Unit), mainLoop broker ts = runTicks ts := by
      intro ts
      unfold mainLoop
      rw [if_pos hb]
    refine ⟨?_, ?_, ?_⟩
    · rw [hif]
      exact runTicks_countP ticks
    · rw [hif]
      exact runTicks_no_stop ticks
    · intro e rest
      rw [hif, hif]
      rfl
  · intro hb
    have hif : ∀ ts : List (Except String Unit),
        mainLoop broker ts = [LoopEvent.stoppedUnknownBroker] := by
      intro ts
      unfold mainLoop
      rw [if_neg hb]
    refine ⟨hif ticks, ?_⟩
    intro o
    rw [hif]
    simp

/-- Witness for claim C10 at a known broker with a raising tick and at an
unknown broker. -/
theorem loop_isolates_tick_failures_witness :
    (mainLoop "alpaca" [Except.error "boom"]).countP isTickRanEvent = 1 ∧
    mainLoop "robinhood" [Except.ok ()] = [LoopEvent.stoppedUnknownBroker] :=
  ⟨((loop_isolates_tick_failures "alpaca" [Except.error "boom"]).1 (Or.inl rfl)).1,
   ((loop_isolates_tick_failures "robinhood" [Except.ok ()]).2 (by decide)).1⟩

end Daydoe
